import Mathlib

/-!
Verification of the bounded-concurrency dispatch-and-aggregation core of
`bulk-jxl` (`src/main.rs`), a batch image-conversion pipeline.

The development shallowly embeds the program:

* `ProcessResult`, `RunTotals` — the outcome model and the accumulator
  variables of `main`'s aggregation loop (`src/main.rs:135-143`, `343-351`).
* `aggregateStep` — one iteration of the `while let Some(task_result) =
  set.join_next().await` loop (`src/main.rs:422-467`).
* `convert_image` — the conversion helper (`src/main.rs:145-203`), over an
  oracle `ConvWorld` describing the external world (subprocess, filesystem).
* `runTask` — the body of the closure spawned per file (`src/main.rs:359-419`).
* `candidates` / `runPipeline` — the collection filter (`src/main.rs:238-261`)
  composed with per-file execution and aggregation.
* `SchedState` / `SchedStep` / `Reachable` — a counting model of the
  `tokio::sync::Semaphore` admission gate (`src/main.rs:340`, `359-360`):
  each spawned task holds one permit from `acquire` until it returns.
* `MainWorld` / `mainModel` — the phase structure of `main`
  (`src/main.rs:206-499`): setup checks, optional confirmation prompt,
  dispatch, aggregation, summary.

Machine integers: the Rust counters are `usize`/`u64`.  The `u64` byte
accumulators wrap modulo `2 ^ 64` (release-profile semantics), modelled with
an explicit `% u64Mod`.  The five `usize` counters each increase by exactly 1
per joined task, so their values are bounded by the number of candidate
files and overflow is unreachable for any physically representable input;
they are modelled as `Nat`.
-/

namespace BulkJxl

/-- `2 ^ 64`, the modulus of Rust `u64` wrapping arithmetic. -/
def u64Mod : Nat := 2 ^ 64

/-- The `ProcessResult` enum (`src/main.rs:135-143`).  The `anyhow::Error`
payload of the `Error` variant plays no role in aggregation and is dropped. -/
inductive ProcessResult where
  | Converted (original_size : Nat) (converted_size : Nat)
  | Copied
  | Skipped
  | Error
deriving DecidableEq

/-- What `set.join_next()` hands the aggregation loop for one task
(`src/main.rs:422-467`): the task returned `Ok(ProcessResult)`, the task
returned `Err(anyhow::Error)`, or joining failed (the task panicked). -/
inductive TaskResult where
  | success (pr : ProcessResult)
  | taskErr
  | joinErr
deriving DecidableEq

/-- The accumulator variables of the aggregation loop
(`src/main.rs:343-351`). -/
structure RunTotals where
  completed_count : Nat
  converted_count : Nat
  copied_count : Nat
  skipped_count : Nat
  error_count : Nat
  total_original_size : Nat
  total_converted_size : Nat
deriving DecidableEq

/-- The initial accumulator state (`src/main.rs:343-351`). -/
def zeroTotals : RunTotals :=
  { completed_count := 0, converted_count := 0, copied_count := 0,
    skipped_count := 0, error_count := 0,
    total_original_size := 0, total_converted_size := 0 }

/-- One iteration of the aggregation loop (`src/main.rs:422-467`):
`completed_count` is incremented unconditionally, then exactly one of the
four outcome counters is incremented; byte totals accumulate (with `u64`
wrapping) only for `Converted`.  Both a task-level `Err` and a join error
(task panic) are counted into `error_count` (`src/main.rs:455-466`). -/
def aggregateStep (t : RunTotals) (r : TaskResult) : RunTotals :=
  let t1 : RunTotals := { t with completed_count := t.completed_count + 1 }
  match r with
  | .success (.Converted original_size converted_size) =>
      { t1 with
        converted_count := t1.converted_count + 1
        total_original_size := (t1.total_original_size + original_size) % u64Mod
        total_converted_size := (t1.total_converted_size + converted_size) % u64Mod }
  | .success .Copied => { t1 with copied_count := t1.copied_count + 1 }
  | .success .Skipped => { t1 with skipped_count := t1.skipped_count + 1 }
  | .success .Error => { t1 with error_count := t1.error_count + 1 }
  | .taskErr => { t1 with error_count := t1.error_count + 1 }
  | .joinErr => { t1 with error_count := t1.error_count + 1 }

/-- Sum of the four per-outcome counters of an accumulator state. -/
def outcomeSum (t : RunTotals) : Nat :=
  t.converted_count + t.copied_count + t.skipped_count + t.error_count

theorem aggregateStep_outcomeSum (t : RunTotals) (r : TaskResult) :
    outcomeSum (aggregateStep t r) = outcomeSum t + 1 := by
  cases r with
  | success pr => cases pr <;> simp [aggregateStep, outcomeSum] <;> omega
  | taskErr => simp [aggregateStep, outcomeSum]; omega
  | joinErr => simp [aggregateStep, outcomeSum]; omega

theorem aggregateStep_completed (t : RunTotals) (r : TaskResult) :
    (aggregateStep t r).completed_count = t.completed_count + 1 := by
  cases r with
  | success pr => cases pr <;> rfl
  | taskErr => rfl
  | joinErr => rfl

theorem foldl_outcomeSum (l : List TaskResult) (t : RunTotals) :
    outcomeSum (l.foldl aggregateStep t) = outcomeSum t + l.length := by
  induction l generalizing t with
  | nil => simp
  | cons r rest ih =>
      simp only [List.foldl_cons, ih, aggregateStep_outcomeSum, List.length_cons]
      omega

theorem foldl_completed (l : List TaskResult) (t : RunTotals) :
    (l.foldl aggregateStep t).completed_count = t.completed_count + l.length := by
  induction l generalizing t with
  | nil => simp
  | cons r rest ih =>
      simp only [List.foldl_cons, ih, aggregateStep_completed, List.length_cons]
      omega

theorem aggregateStep_comm (t : RunTotals) (r₁ r₂ : TaskResult) :
    aggregateStep (aggregateStep t r₁) r₂ = aggregateStep (aggregateStep t r₂) r₁ := by
  have key : ∀ x a b : Nat,
      ((x + a) % u64Mod + b) % u64Mod = ((x + b) % u64Mod + a) % u64Mod := by
    intro x a b
    rw [Nat.mod_add_mod, Nat.mod_add_mod, Nat.add_assoc, Nat.add_assoc,
      Nat.add_comm a b]
  cases r₁ with
  | success pr₁ =>
      cases r₂ with
      | success pr₂ =>
          cases pr₁ <;> cases pr₂ <;> simp [aggregateStep, key]
      | taskErr => cases pr₁ <;> simp [aggregateStep]
      | joinErr => cases pr₁ <;> simp [aggregateStep]
  | taskErr =>
      cases r₂ with
      | success pr₂ => cases pr₂ <;> simp [aggregateStep]
      | taskErr => rfl
      | joinErr => rfl
  | joinErr =>
      cases r₂ with
      | success pr₂ => cases pr₂ <;> simp [aggregateStep]
      | taskErr => rfl
      | joinErr => rfl

instance : RightCommutative aggregateStep := ⟨aggregateStep_comm⟩

/-- The `ACCEPTED_EXTENSIONS` constant (`src/main.rs:33-133`). -/
def ACCEPTED_EXTENSIONS : List String :=
  ["jpg", "jpeg", "jpe", "jif", "jfif", "jfi",
   "png", "webp", "gif", "bmp", "dib", "ppm", "pgm", "pam",
   "tif", "tiff", "tga", "icb", "vda", "vst", "dds", "exr",
   "hdr", "pic", "ico", "fits", "pix", "brender_pix",
   "j2k", "jp2", "jpt", "jls", "pbm", "pcx", "pfm", "pgmyuv",
   "pgx", "phm", "pcd", "pct", "pict", "psd", "qdraw", "qoi",
   "sgi", "ras", "vbn", "xbm", "xpm", "xwd"]

/-- Rust `str::to_lowercase` as applied to file extensions
(`src/main.rs:253`, `src/main.rs:367`): character-wise lowercasing. -/
def toLowercase (s : String) : String := ⟨s.data.map Char.toLower⟩

/-- Oracle describing the external world seen by one `convert_image` call
(`src/main.rs:145-203`): whether spawning `ffmpeg` succeeds, whether waiting
on it succeeds and it exits successfully, whether each metadata/timestamp
operation succeeds, and the values those operations would return. -/
structure ConvWorld where
  spawnOk : Bool
  waitOk : Bool
  exitSuccess : Bool
  srcMetadataOk : Bool
  modifiedOk : Bool
  setMtimeOk : Bool
  dstMetadataOk : Bool
  srcSize : Nat
  dstSize : Nat
  srcMtime : Nat
deriving DecidableEq

/-- How one `convert_image` call terminates: returning `Ok((src, dst))`,
returning `Err(..)` via `?`, or panicking (the `.spawn().unwrap()` at
`src/main.rs:172-173`, which unwinds instead of returning). -/
inductive ConvOutcome where
  | ok (srcSize : Nat) (dstSize : Nat)
  | err
  | panicked
deriving DecidableEq

/-- Externally visible side effects of one task, in program order. -/
inductive Event where
  | createDir
  | spawnConverter
  | setMtime (mtime : Nat)
  | copyFile
deriving DecidableEq

/-- `convert_image` (`src/main.rs:145-203`) over the oracle: spawn `ffmpeg`
(`unwrap` panics on spawn failure), wait for it (`?` on wait error, `Err` on
non-zero exit), read the source metadata and its modified time (`?`), set the
destination mtime to the source's (`?`), read the destination metadata (`?`),
and return the two sizes.  The second component records the attempted
external effects in order. -/
def convert_image (w : ConvWorld) : ConvOutcome × List Event :=
  if w.spawnOk = false then (.panicked, [.spawnConverter])
  else if w.waitOk = false then (.err, [.spawnConverter])
  else if w.exitSuccess = false then (.err, [.spawnConverter])
  else if w.srcMetadataOk = false then (.err, [.spawnConverter])
  else if w.modifiedOk = false then (.err, [.spawnConverter])
  else if w.setMtimeOk = false then (.err, [.spawnConverter, .setMtime w.srcMtime])
  else if w.dstMetadataOk = false then (.err, [.spawnConverter, .setMtime w.srcMtime])
  else (.ok w.srcSize w.dstSize, [.spawnConverter, .setMtime w.srcMtime])

/-- One candidate file together with the oracle for everything its task
would touch (`src/main.rs:359-419`): the extension as extracted by
`extension().and_then(to_str).unwrap_or("")` (before lowercasing), whether
`strip_prefix` succeeds, whether the derived destination path exists,
whether `create_dir_all` and `tokio::fs::copy` succeed, and the conversion
oracle. -/
structure ItemWorld where
  ext : String
  stripPrefixOk : Bool
  destExists : Bool
  createDirOk : Bool
  copyOk : Bool
  conv : ConvWorld
deriving DecidableEq

/-- How one spawned task terminates: returning `Ok(ProcessResult)`,
returning `Err(anyhow::Error)` via `?`, or panicking. -/
inductive TaskRet where
  | ok (pr : ProcessResult)
  | err
  | panicked
deriving DecidableEq

/-- The body of the closure spawned per file (`src/main.rs:359-419`):
`strip_prefix` (`?`), lowercase the extension, then three branches —
accepted extension: destination-exists check, `create_dir_all` (`?`),
`convert_image` (its `Ok`/`Err` both wrapped in `Ok(..)`, a panic
propagating); `copy_all`: destination-exists check, `create_dir_all` (`?`),
`tokio::fs::copy` (both results wrapped in `Ok(..)`); otherwise: `Skipped`.
The `semaphore.acquire().await.unwrap()` at `src/main.rs:360` cannot fail
(the semaphore is never closed) and is modelled in `SchedStep` instead. -/
def runTask (copy_all : Bool) (w : ItemWorld) : TaskRet × List Event :=
  if w.stripPrefixOk = false then (.err, [])
  else if ACCEPTED_EXTENSIONS.contains (toLowercase w.ext) then
    if w.destExists then (.ok .Skipped, [])
    else if w.createDirOk = false then (.err, [.createDir])
    else
      match convert_image w.conv with
      | (.ok o c, evs) => (.ok (.Converted o c), .createDir :: evs)
      | (.err, evs) => (.ok .Error, .createDir :: evs)
      | (.panicked, evs) => (.panicked, .createDir :: evs)
  else if copy_all then
    if w.destExists then (.ok .Skipped, [])
    else if w.createDirOk = false then (.err, [.createDir])
    else if w.copyOk then (.ok .Copied, [.createDir, .copyFile])
    else (.ok .Error, [.createDir, .copyFile])
  else (.ok .Skipped, [])

/-- How the aggregation loop (`src/main.rs:422-467`) sees one task's
termination: value returns arrive through `Ok(..)` from `join_next`, a panic
arrives as a `JoinError`. -/
def taskRetToResult : TaskRet → TaskResult
  | .ok pr => .success pr
  | .err => .taskErr
  | .panicked => .joinErr

/-- The collection filter (`src/main.rs:238-261`): with `copy_all` every
file is kept, otherwise only files whose lowercased extension is accepted.
These are the candidates submitted to the dispatcher. -/
def candidates (copy_all : Bool) (files : List ItemWorld) : List ItemWorld :=
  files.filter fun f => copy_all || ACCEPTED_EXTENSIONS.contains (toLowercase f.ext)

/-- The whole run on a directory snapshot: collect candidates, execute each
task, and fold the completions through the aggregation loop
(`src/main.rs:238-473`). -/
def runPipeline (copy_all : Bool) (files : List ItemWorld) : RunTotals :=
  ((candidates copy_all files).map fun f =>
      taskRetToResult (runTask copy_all f).fst).foldl aggregateStep zeroTotals

/-- Counting abstraction of the dispatcher's task population
(`src/main.rs:339-360`): `pending` tasks are spawned but still suspended in
`semaphore.acquire().await`; `running` tasks hold a permit (the `_permit`
binding lives for the whole task body); `done` tasks have returned, dropping
their permit, and can be observed by `join_next`. -/
structure SchedState where
  pending : Nat
  running : Nat
  done : Nat
deriving DecidableEq

/-- Transitions of the semaphore-gated task population, for a
`Semaphore::new(N)` (`src/main.rs:340`): a pending task's `acquire` can only
complete while fewer than `N` permits are held; a running task can finish,
releasing its permit. -/
inductive SchedStep (N : Nat) : SchedState → SchedState → Prop where
  | acquire (s : SchedState) (hp : 0 < s.pending) (hr : s.running < N) :
      SchedStep N s ⟨s.pending - 1, s.running + 1, s.done⟩
  | finish (s : SchedState) (hr : 0 < s.running) :
      SchedStep N s ⟨s.pending, s.running - 1, s.done + 1⟩

/-- States reachable from `init` by `SchedStep` transitions. -/
inductive Reachable (N : Nat) (init : SchedState) : SchedState → Prop where
  | refl : Reachable N init init
  | step {s s' : SchedState} :
      Reachable N init s → SchedStep N s s' → Reachable N init s'

/-- The join loop (`src/main.rs:422-473`) exits, reaching the summary, only
once all `k` spawned tasks have completed and been joined. -/
def joinLoopFinished (k : Nat) (s : SchedState) : Prop := s.done = k

/-- Oracle for the phase structure of `main` (`src/main.rs:206-499`):
results of the setup checks (`src/main.rs:209-223`), of the pre-dispatch
total-size fold over the collected files (`src/main.rs:265-269` — `sizeFoldOk`
is `true` exactly when every `std::fs::metadata(f)` in that fold succeeds),
the confirmation prompt (`src/main.rs:328-337`), and the completions the
join loop observes. -/
structure MainWorld where
  inputExists : Bool
  inputIsDir : Bool
  outputExists : Bool
  createOutputOk : Bool
  outputIsDir : Bool
  sizeFoldOk : Bool
  yes : Bool
  promptOk : Bool
  promptAnswer : Bool
  completions : List TaskResult
deriving DecidableEq

/-- How `main` terminates: an `Err(..)` return (process exit status
non-zero), a panic of `main` itself (the `.unwrap()` in the size fold at
`src/main.rs:269` — the process aborts with a non-zero status and no
summary), the early `Ok(())` after a declined confirmation
(`src/main.rs:333-336`, before anything is dispatched), or the normal path
that prints the summary of all completions and returns `Ok(())`
(`src/main.rs:476-499`). -/
inductive MainExit where
  | setupErr (msg : String)
  | panicked
  | abortedOk
  | finished (totals : RunTotals)
deriving DecidableEq

/-- The phase structure of `main` (`src/main.rs:206-499`) in source order:
input-exists and input-is-dir checks, `create_dir_all` for a missing output
(`?`), output-is-dir check, the total-size fold over the collected files
whose `std::fs::metadata(f).unwrap()` (`src/main.rs:267-269`) panics `main`
if any metadata read fails, the confirmation prompt — consulted only when
`args.yes` is set (`src/main.rs:328`) — then dispatch, the join loop over
all completions, and the summary.  After dispatch begins no `?` or `unwrap`
occurs: the join loop and summary cannot produce an `Err` return or a
panic.  (Traversal errors during collection are silently dropped by
`filter_map(|e| e.ok())` at `src/main.rs:240` and have no failure path.) -/
def mainModel (w : MainWorld) : MainExit :=
  if w.inputExists = false then .setupErr "Input path does not exist"
  else if w.inputIsDir = false then .setupErr "Input path is not a directory"
  else if w.outputExists = false ∧ w.createOutputOk = false then
    .setupErr "Failed to create output directory"
  else if w.outputIsDir = false then .setupErr "Output path is not a directory"
  else if w.sizeFoldOk = false then .panicked
  else if w.yes then
    if w.promptOk = false then .setupErr "Confirmation prompt failed"
    else if w.promptAnswer = false then .abortedOk
    else .finished (w.completions.foldl aggregateStep zeroTotals)
  else .finished (w.completions.foldl aggregateStep zeroTotals)

/-- A conversion oracle where every external operation succeeds. -/
def allOkConv : ConvWorld :=
  { spawnOk := true, waitOk := true, exitSuccess := true, srcMetadataOk := true,
    modifiedOk := true, setMtimeOk := true, dstMetadataOk := true,
    srcSize := 100, dstSize := 40, srcMtime := 5 }

/-- A candidate list with a single already-converted image. -/
def c1Files : List ItemWorld :=
  [{ ext := "png", stripPrefixOk := true, destExists := true,
     createDirOk := true, copyOk := true, conv := allOkConv }]

/-- The completions produced by `c1Files`, in submission order. -/
def c1Completions : List TaskResult :=
  (candidates false c1Files).map fun f => taskRetToResult (runTask false f).fst

/-- Claim C1: after the run completes, the sum of the per-outcome counts
(converted, copied, skipped, failed) accumulated by the aggregation loop
equals the number of candidate files submitted to the dispatcher, for every
finite candidate set and every interleaving (permutation) of completions;
the `completed_count` progress counter agrees. -/
theorem counts_sum_eq_candidates (copy_all : Bool) (files : List ItemWorld)
    (l : List TaskResult)
    (hl : l.Perm ((candidates copy_all files).map fun f =>
        taskRetToResult (runTask copy_all f).fst)) :
    outcomeSum (l.foldl aggregateStep zeroTotals) = (candidates copy_all files).length ∧
    (l.foldl aggregateStep zeroTotals).completed_count
      = (candidates copy_all files).length := by
  have hlen : l.length = (candidates copy_all files).length := by
    simpa using hl.length_eq
  constructor
  · rw [foldl_outcomeSum]
    simp [zeroTotals, outcomeSum, hlen]
  · rw [foldl_completed]
    simp [zeroTotals, hlen]

/-- Witness for C1 on a concrete one-element candidate set. -/
theorem counts_sum_eq_candidates_witness :
    outcomeSum (c1Completions.foldl aggregateStep zeroTotals)
      = (candidates false c1Files).length ∧
    (c1Completions.foldl aggregateStep zeroTotals).completed_count
      = (candidates false c1Files).length :=
  counts_sum_eq_candidates false c1Files c1Completions (List.Perm.refl _)

/-- Claim C5: the final totals (all four counts and both byte sums) are
independent of the order in which completions arrive — folding any
permutation of the same multiset of per-item outcomes through the
aggregation loop yields identical final totals. -/
theorem totals_order_independent (l₁ l₂ : List TaskResult) (h : l₁.Perm l₂) :
    l₁.foldl aggregateStep zeroTotals = l₂.foldl aggregateStep zeroTotals :=
  h.foldl_eq zeroTotals

/-- Witness for C5: swapping a converted and a failed completion. -/
theorem totals_order_independent_witness :
    [TaskResult.success (ProcessResult.Converted 100 40),
     TaskResult.taskErr].foldl aggregateStep zeroTotals
      = [TaskResult.taskErr,
         TaskResult.success (ProcessResult.Converted 100 40)].foldl
          aggregateStep zeroTotals :=
  totals_order_independent _ _ (List.Perm.swap _ _ _)

/-- Claim C2: a `Convert` action whose destination already exists resolves
to `Skipped`, never `Converted` and never `Failed`, and no converter
subprocess is spawned (the task's effect trace is empty, so in particular it
contains no `spawnConverter` event). -/
theorem convert_existing_dest_skipped (copy_all : Bool) (w : ItemWorld)
    (hstrip : w.stripPrefixOk = true)
    (hacc : ACCEPTED_EXTENSIONS.contains (toLowercase w.ext) = true)
    (hdest : w.destExists = true) :
    runTask copy_all w = (TaskRet.ok ProcessResult.Skipped, []) ∧
    Event.spawnConverter ∉ (runTask copy_all w).snd := by
  have heq : runTask copy_all w = (TaskRet.ok ProcessResult.Skipped, []) := by
    simp [runTask, hstrip, hacc, hdest]
  exact ⟨heq, by simp [heq]⟩

/-- An image whose converted destination already exists (uppercase extension,
exercising the lowercasing) and whose conversion oracle would fail if it
were ever consulted. -/
def c2Item : ItemWorld :=
  { ext := "PNG", stripPrefixOk := true, destExists := true,
    createDirOk := false, copyOk := false,
    conv := { allOkConv with spawnOk := false } }

/-- Witness for C2 at a concrete item. -/
theorem convert_existing_dest_skipped_witness :
    runTask false c2Item = (TaskRet.ok ProcessResult.Skipped, []) ∧
    Event.spawnConverter ∉ (runTask false c2Item).snd :=
  convert_existing_dest_skipped false c2Item rfl (by decide) rfl

theorem convert_image_no_panic (w : ConvWorld) (h : w.spawnOk = true) :
    (convert_image w).fst ≠ ConvOutcome.panicked := by
  simp only [convert_image, h]
  split <;> simp_all
  split <;> simp_all
  split <;> simp_all
  split <;> simp_all
  split <;> simp_all
  split <;> simp_all
  split <;> simp_all

/-- A convertible item whose destination is fresh but whose `ffmpeg` spawn
fails (e.g. the binary is missing). -/
def c3Item : ItemWorld :=
  { ext := "png", stripPrefixOk := true, destExists := false,
    createDirOk := true, copyOk := true,
    conv := { allOkConv with spawnOk := false } }

/-- Counterexample to C3: when spawning the converter fails, the task
panics (the `.unwrap()` at `src/main.rs:172-173`), unwinding out of the
executing task instead of returning a `Failed` outcome value. -/
theorem spawn_failure_panics :
    (runTask false c3Item).fst = TaskRet.panicked ∧
    (runTask false c3Item).fst ≠ TaskRet.ok ProcessResult.Error ∧
    (runTask false c3Item).fst ≠ TaskRet.err := by
  decide

/-- Claim C3 as amended: provided the converter subprocess can be spawned,
every per-item execution error (non-zero exit, wait failure, copy I/O
failure, directory-creation failure, metadata read/write failure) is
captured inside the task and returned as a value — the task never panics —
and a panic that does escape (spawn failure) is caught at the join point and
folded into `error_count` exactly like any other failed item, leaving every
other completion's contribution unchanged. -/
theorem errors_returned_as_values (copy_all : Bool) (w : ItemWorld)
    (hspawn : w.conv.spawnOk = true) :
    (runTask copy_all w).fst ≠ TaskRet.panicked ∧
    ∀ t : RunTotals, aggregateStep t TaskResult.joinErr =
      { t with completed_count := t.completed_count + 1,
               error_count := t.error_count + 1 } := by
  refine ⟨?_, fun t => rfl⟩
  by_cases h1 : w.stripPrefixOk = false
  · simp [runTask, h1]
  · by_cases h2 : ACCEPTED_EXTENSIONS.contains (toLowercase w.ext) = true
    · have h2m : toLowercase w.ext ∈ ACCEPTED_EXTENSIONS := by simpa using h2
      by_cases h3 : w.destExists = true
      · simp [runTask, h1, h2m, h3]
      · by_cases h4 : w.createDirOk = false
        · simp [runTask, h1, h2m, h3, h4]
        · have hnp := convert_image_no_panic w.conv hspawn
          rcases hci : convert_image w.conv with ⟨co, evs⟩
          rw [hci] at hnp
          cases co with
          | ok o c => simp [runTask, h1, h2m, h3, h4, hci]
          | err => simp [runTask, h1, h2m, h3, h4, hci]
          | panicked => exact absurd rfl hnp
    · have h2m : toLowercase w.ext ∉ ACCEPTED_EXTENSIONS := by simpa using h2
      by_cases h5 : copy_all
      · by_cases h3 : w.destExists = true
        · simp [runTask, h1, h2m, h3, h5]
        · by_cases h4 : w.createDirOk = false
          · simp [runTask, h1, h2m, h3, h4, h5]
          · by_cases h6 : w.copyOk = true
            · simp [runTask, h1, h2m, h3, h4, h5, h6]
            · simp [runTask, h1, h2m, h3, h4, h5, h6]
      · simp [runTask, h1, h2m, h5]

/-- A convertible item whose conversion subprocess spawns but exits
non-zero. -/
def c3OkItem : ItemWorld :=
  { ext := "png", stripPrefixOk := true, destExists := false,
    createDirOk := true, copyOk := true,
    conv := { allOkConv with exitSuccess := false } }

/-- Witness for the amended C3 at a concrete item. -/
theorem errors_returned_as_values_witness :
    (runTask false c3OkItem).fst ≠ TaskRet.panicked :=
  (errors_returned_as_values false c3OkItem rfl).1

/-- The convertible `a.png` of the three-file scenario: fresh destination,
conversion succeeds (100 bytes in, 40 bytes out). -/
def demoA : ItemWorld :=
  { ext := "png", stripPrefixOk := true, destExists := false,
    createDirOk := true, copyOk := true, conv := allOkConv }

/-- The non-convertible `b.txt` of the three-file scenario. -/
def demoB : ItemWorld :=
  { ext := "txt", stripPrefixOk := true, destExists := false,
    createDirOk := true, copyOk := true, conv := allOkConv }

/-- The `c.png` of the three-file scenario, whose converted output already
exists. -/
def demoC : ItemWorld :=
  { ext := "png", stripPrefixOk := true, destExists := true,
    createDirOk := true, copyOk := true, conv := allOkConv }

/-- The three-file input directory of the scenario. -/
def demo3 : List ItemWorld := [demoA, demoB, demoC]

/-- Counterexample to C4: on the three-file scenario with copy-all disabled
the final totals are not 1 converted / 2 skipped / 0 copied / 0 failed —
`b.txt` is excluded by the collection filter (`src/main.rs:242-256`) before
anything is submitted, so only one `Skipped` outcome is ever produced. -/
theorem scenario_counts_counterexample :
    ¬ ((runPipeline false demo3).converted_count = 1 ∧
       (runPipeline false demo3).skipped_count = 2 ∧
       (runPipeline false demo3).copied_count = 0 ∧
       (runPipeline false demo3).error_count = 0) := by
  decide

/-- Claim C4 as amended: with copy-all disabled, `b.txt` never becomes a
candidate (the collection filter admits only accepted image extensions), so
exactly two items are submitted and the run ends with 1 `Converted`,
1 `Skipped` (the pre-existing output), 0 `Copied`, 0 `Failed`. -/
theorem scenario_counts_amended :
    candidates false demo3 = [demoA, demoC] ∧
    runPipeline false demo3 =
      { completed_count := 2, converted_count := 1, copied_count := 0,
        skipped_count := 1, error_count := 0,
        total_original_size := 100, total_converted_size := 40 } := by
  decide

/-- Claim C6: at no point during a run do more than `N` action-executor
invocations execute simultaneously, where `N` is the configured jobs
capacity — in every state reachable from the initial all-pending state, the
number of permit-holding (running) tasks is at most `N`, for any `N ≥ 1`. -/
theorem concurrency_cap_invariant (N k : Nat) (hN : 1 ≤ N) (s : SchedState)
    (h : Reachable N ⟨k, 0, 0⟩ s) : s.running ≤ N := by
  induction h with
  | refl => exact Nat.zero_le N
  | step hprev hstep ih =>
      cases hstep with
      | acquire hp hr => exact hr
      | finish hr => exact Nat.le_trans (Nat.sub_le _ _) ih

/-- Witness for C6: capacity 1, one task admitted. -/
theorem concurrency_cap_invariant_witness :
    (SchedState.mk 0 1 0).running ≤ 1 :=
  concurrency_cap_invariant 1 1 (by decide) ⟨0, 1, 0⟩
    (Reachable.step Reachable.refl
      (SchedStep.acquire ⟨1, 0, 0⟩ (by decide) (by decide)))

/-- Claim C10: with a jobs capacity of 0 and at least one candidate, no
spawned task ever acquires a permit — every reachable state still has all
`k` tasks pending, none running, none done — so the join loop never
observes a completion and never finishes. -/
theorem zero_jobs_never_completes (k : Nat) (hk : 1 ≤ k) (s : SchedState)
    (h : Reachable 0 ⟨k, 0, 0⟩ s) :
    s.pending = k ∧ s.running = 0 ∧ s.done = 0 ∧ ¬ joinLoopFinished k s := by
  have inv : s.pending = k ∧ s.running = 0 ∧ s.done = 0 := by
    induction h with
    | refl => exact ⟨rfl, rfl, rfl⟩
    | step hprev hstep ih =>
        cases hstep with
        | acquire hp hr => exact absurd hr (Nat.not_lt_zero _)
        | finish hr =>
            rw [ih.2.1] at hr
            exact absurd hr (by omega)
  refine ⟨inv.1, inv.2.1, inv.2.2, ?_⟩
  unfold joinLoopFinished
  rw [inv.2.2]
  omega

/-- Witness for C10: one candidate, initial state. -/
theorem zero_jobs_never_completes_witness :
    (SchedState.mk 1 0 0).pending = 1 ∧ (SchedState.mk 1 0 0).running = 0 ∧
    (SchedState.mk 1 0 0).done = 0 ∧ ¬ joinLoopFinished 1 (SchedState.mk 1 0 0) :=
  zero_jobs_never_completes 1 (by decide) ⟨1, 0, 0⟩ Reachable.refl

/-- Claim C8: after a successful conversion subprocess exit, the executor
sets the destination's last-modified time to the source's (`setMtime` with
the source mtime appears in the effect trace) and returns `Converted` with
the two sizes; failure of the source-metadata read, the modified-time read,
or the timestamp write turns the otherwise-successful conversion into a
`Failed` (`ProcessResult.Error`) outcome for that item. -/
theorem timestamp_propagation (copy_all : Bool) (w : ItemWorld)
    (hstrip : w.stripPrefixOk = true)
    (hacc : ACCEPTED_EXTENSIONS.contains (toLowercase w.ext) = true)
    (hdest : w.destExists = false)
    (hdir : w.createDirOk = true)
    (hspawn : w.conv.spawnOk = true)
    (hwait : w.conv.waitOk = true)
    (hexit : w.conv.exitSuccess = true) :
    (w.conv.srcMetadataOk = true → w.conv.modifiedOk = true →
      w.conv.setMtimeOk = true → w.conv.dstMetadataOk = true →
      (runTask copy_all w).fst
          = TaskRet.ok (ProcessResult.Converted w.conv.srcSize w.conv.dstSize) ∧
      Event.setMtime w.conv.srcMtime ∈ (runTask copy_all w).snd)
    ∧ ((w.conv.srcMetadataOk = false ∨ w.conv.modifiedOk = false ∨
        w.conv.setMtimeOk = false) →
      (runTask copy_all w).fst = TaskRet.ok ProcessResult.Error) := by
  have haccm : toLowercase w.ext ∈ ACCEPTED_EXTENSIONS := by simpa using hacc
  constructor
  · intro h1 h2 h3 h4
    have hci : convert_image w.conv
        = (.ok w.conv.srcSize w.conv.dstSize,
           [.spawnConverter, .setMtime w.conv.srcMtime]) := by
      simp [convert_image, hspawn, hwait, hexit, h1, h2, h3, h4]
    constructor
    · simp [runTask, hstrip, haccm, hdest, hdir, hci]
    · simp [runTask, hstrip, haccm, hdest, hdir, hci]
  · intro hfail
    have hci : (convert_image w.conv).fst = ConvOutcome.err := by
      rcases hfail with h | h | h <;>
        simp [convert_image, hspawn, hwait, hexit, h] <;>
        split <;> simp_all <;> split <;> simp_all
    rcases hsnd : convert_image w.conv with ⟨co, evs⟩
    rw [hsnd] at hci
    simp at hci
    subst hci
    simp [runTask, hstrip, haccm, hdest, hdir, hsnd]

/-- A convertible item whose destination mtime write fails after a
successful conversion. -/
def c8Item : ItemWorld :=
  { ext := "png", stripPrefixOk := true, destExists := false,
    createDirOk := true, copyOk := true,
    conv := { allOkConv with setMtimeOk := false } }

/-- Witness for C8: a failed timestamp write yields a `Failed` item. -/
theorem timestamp_propagation_witness :
    (runTask false c8Item).fst = TaskRet.ok ProcessResult.Error :=
  (timestamp_propagation false c8Item rfl (by decide) rfl rfl rfl rfl rfl).2
    (Or.inr (Or.inr rfl))

/-- `true` exactly when some pre-dispatch phase of `main` fails: one of the
setup checks (`src/main.rs:209-223`) returns `Err`, a metadata read in the
total-size fold panics (`src/main.rs:267-269`), or the confirmation prompt
itself errors (`src/main.rs:329-331`).  The completions observed after
dispatch do not occur in this predicate. -/
def setupFails (w : MainWorld) : Bool :=
  !w.inputExists || !w.inputIsDir || (!w.outputExists && !w.createOutputOk) ||
    !w.outputIsDir || !w.sizeFoldOk || (w.yes && !w.promptOk)

/-- Claim C7: `main` exits with non-zero status — returning `Err` or
panicking in the pre-dispatch size fold — exactly when a pre-dispatch phase
fails, a condition independent of the per-item completions, so item
failures never change the exit status; and whenever every pre-dispatch
phase succeeds the run either stops at the declined confirmation or reaches
the final summary folding every completion, returning `Ok`. -/
theorem summary_and_exit_status (w : MainWorld) (l : List TaskResult) :
    (((∃ e, mainModel w = MainExit.setupErr e) ∨ mainModel w = MainExit.panicked)
        ↔ setupFails w = true)
    ∧ setupFails { w with completions := l } = setupFails w
    ∧ (setupFails w = false →
        mainModel w = MainExit.abortedOk ∨
        mainModel w = MainExit.finished
          (w.completions.foldl aggregateStep zeroTotals)) := by
  obtain ⟨ie, idir, oe, co, odir, sf, y, pok, pans, comps⟩ := w
  refine ⟨?_, rfl, ?_⟩
  · cases ie <;> cases idir <;> cases oe <;> cases co <;> cases odir <;>
      cases sf <;> cases y <;> cases pok <;> cases pans <;>
      simp [mainModel, setupFails]
  · intro hok
    cases ie <;> cases idir <;> cases oe <;> cases co <;> cases odir <;>
      cases sf <;> cases y <;> cases pok <;> cases pans <;>
      simp_all [mainModel, setupFails]

/-- A world whose pre-dispatch phases all pass, whose only completion is a
failed item, and whose prompt is never consulted (`yes` unset). -/
def c7World : MainWorld :=
  { inputExists := true, inputIsDir := true, outputExists := true,
    createOutputOk := true, outputIsDir := true, sizeFoldOk := true,
    yes := false, promptOk := false, promptAnswer := false,
    completions := [TaskResult.taskErr] }

/-- Witness for C7: with a failed item the run still reaches an `Ok` exit. -/
theorem summary_and_exit_status_witness :
    mainModel c7World = MainExit.abortedOk ∨
    mainModel c7World = MainExit.finished
      (c7World.completions.foldl aggregateStep zeroTotals) :=
  (summary_and_exit_status c7World []).2.2 rfl

/-- Claim C9: the confirmation prompt is consulted if and only if the `yes`
flag is set — with the flag absent the result is independent of the prompt
oracle (the run proceeds to dispatch without confirmation), and with the
flag set a declined prompt makes `main` return `Ok` before any item is
dispatched (`MainExit.abortedOk`, produced at `src/main.rs:333-336`). -/
theorem prompt_iff_yes_flag (w : MainWorld) :
    (w.yes = false → ∀ pok pans : Bool,
      mainModel { w with promptOk := pok, promptAnswer := pans } = mainModel w)
    ∧ (w.yes = true → setupFails w = false → w.promptAnswer = false →
        mainModel w = MainExit.abortedOk) := by
  obtain ⟨ie, idir, oe, co, odir, sf, y, pok, pans, comps⟩ := w
  constructor
  · intro hyes pok2 pans2
    subst hyes
    simp [mainModel]
  · intro hyes hok hans
    subst hyes
    subst hans
    cases ie <;> cases idir <;> cases oe <;> cases co <;> cases odir <;>
      cases sf <;> cases pok <;> simp_all [mainModel, setupFails]

/-- A world with all pre-dispatch phases passing, the `yes` flag set, and a
declined prompt. -/
def c9World : MainWorld :=
  { inputExists := true, inputIsDir := true, outputExists := true,
    createOutputOk := true, outputIsDir := true, sizeFoldOk := true,
    yes := true, promptOk := true, promptAnswer := false,
    completions := [TaskResult.success ProcessResult.Copied] }

/-- Witness for C9: the declined prompt aborts with an `Ok` exit. -/
theorem prompt_iff_yes_flag_witness :
    mainModel c9World = MainExit.abortedOk :=
  (prompt_iff_yes_flag c9World).2 rfl rfl rfl

end BulkJxl
